import Mathlib

/-!
Shallow embedding of the receipt-points service in `src/main.go`
(package `main` of Ashish372/fetch_OA).

The Go program is an HTTP service with two handlers over two shared maps
(`receipts`, `points`) and a pure scoring function `calculatePoints`.
The scoring function parses sub-fields of the receipt with
`strconv.ParseFloat` and `time.Parse`, discarding every parse error, and
sums the contributions of the implemented rules (rule 6 is commented out
in the source).

Numeric model: `strconv.ParseFloat` yields a `float64`; here a parsed
decimal literal is kept exactly as `mant / 10 ^ exp10` (structure `Dec`)
and the two float computations of the program — `math.Mod(total, 0.25) == 0`
and `int(math.Ceil(price * 0.2))` — are evaluated exactly over that value
(`0.25 = 1/4` and `0.2 = 1/5` as real numbers). The model covers the
ordinary decimal forms of `ParseFloat` (optional sign, digits with an
optional fraction part, optional decimal exponent); the hexadecimal,
underscore, infinity and NaN forms accepted by Go are treated as
unparsable here, and binary-rounding artefacts of `float64` are outside
the model.

String model: strings are examined through `String.toList`; Go's
`strings.HasSuffix` and `strings.TrimSpace` are embedded as list
operations on characters.
-/

namespace FetchOA

/-- Item of a receipt: `type Item struct` in `main.go` (two string fields). -/
structure Item where
  ShortDescription : String
  Price : String

/-- Receipt: `type Receipt struct` in `main.go` (string fields plus the item list). -/
structure Receipt where
  Retailer : String
  PurchaseDate : String
  PurchaseTime : String
  Items : List Item
  Total : String

/-- Exact value of a parsed decimal literal: the rational `mant / 10 ^ exp10`. -/
structure Dec where
  mant : Int
  exp10 : Nat
deriving DecidableEq

/-- Numeric value of a list of decimal digit characters (most significant first). -/
def digitsToNat (ds : List Char) : Nat :=
  ds.foldl (fun n c => 10 * n + (c.toNat - 48)) 0

/-- Nonempty and all characters are decimal digits. -/
def isDigits (ds : List Char) : Bool :=
  !ds.isEmpty && ds.all Char.isDigit

/-- Mantissa of a decimal literal: digits with at most one dot and at least one
digit (`ParseFloat` accepts `5`, `5.`, `.5`, `5.25`, and rejects `.` and the
empty string). Returns the digits' value and the length of the fraction part. -/
def parseMantissa (cs : List Char) : Option (Int × Nat) :=
  match cs.splitOn '.' with
  | [ip] => if isDigits ip then some ((digitsToNat ip : Int), 0) else none
  | [ip, fp] =>
      if ip.all Char.isDigit && fp.all Char.isDigit && (!ip.isEmpty || !fp.isEmpty) then
        some ((digitsToNat (ip ++ fp) : Int), fp.length)
      else none
  | _ => none

/-- Exponent part of a decimal literal: optional sign, then digits. -/
def parseExponent (cs : List Char) : Option Int :=
  match cs with
  | '+' :: ds => if isDigits ds then some (digitsToNat ds : Int) else none
  | '-' :: ds => if isDigits ds then some (-(digitsToNat ds : Int)) else none
  | ds => if isDigits ds then some (digitsToNat ds : Int) else none

/-- Combine a mantissa `M / 10 ^ f` with a decimal exponent `x`:
the value `M * 10 ^ x / 10 ^ f` as a `Dec`. -/
def applyExponent (M : Int) (f : Nat) (x : Int) : Dec :=
  if (f : Int) ≤ x then ⟨M * 10 ^ (x - f).toNat, 0⟩ else ⟨M, (f - x).toNat⟩

/-- Unsigned decimal literal: mantissa with an optional `e`/`E` exponent. -/
def parseUnsigned (cs : List Char) : Option Dec :=
  let cs := cs.map fun c => if c == 'E' then 'e' else c
  match cs.splitOn 'e' with
  | [m] => (parseMantissa m).map fun p => ⟨p.1, p.2⟩
  | [m, ex] =>
      match parseMantissa m, parseExponent ex with
      | some p, some x => some (applyExponent p.1 p.2 x)
      | _, _ => none
  | _ => none

/-- Embedding of `strconv.ParseFloat(s, 64)` on ordinary decimal literals,
kept exact as a `Dec` instead of rounding to `float64`; `none` is Go's error
case. -/
def parseFloat (s : String) : Option Dec :=
  match s.toList with
  | '+' :: cs => parseUnsigned cs
  | '-' :: cs => (parseUnsigned cs).map fun d => ⟨-d.mant, d.exp10⟩
  | cs => parseUnsigned cs

/-- Parsed value with Go's behavior on error: `v, _ := strconv.ParseFloat(s, 64)`
leaves `v = 0` when parsing fails. -/
def parsedDec (s : String) : Dec :=
  (parseFloat s).getD ⟨0, 0⟩

/-- Embedding of `math.Mod(v, 0.25) == 0` for the exact value `v = mant / 10 ^ exp10`:
the remainder is zero exactly when `v` is an integer multiple of `1/4`,
i.e. when `10 ^ exp10` divides `4 * mant`. -/
def isMultipleOfQuarter (d : Dec) : Bool :=
  (4 * d.mant) % (10 ^ d.exp10 : Int) == 0

/-- Embedding of `int(math.Ceil(v * 0.2))` for the exact value
`v = mant / 10 ^ exp10`: the ceiling of `mant / (5 * 10 ^ exp10)`, computed
with integer floor division (`Int.ediv` floors for a positive divisor, and
`⌈a / b⌉ = -⌊-a / b⌋`). -/
def ceilOfFifth (d : Dec) : Int :=
  -((-d.mant) / (5 * 10 ^ d.exp10 : Int))

/-- Embedding of `strings.HasSuffix s suf`. -/
def hasSuffix (s suf : String) : Bool :=
  suf.toList.isSuffixOf s.toList

/-- Embedding of `strings.TrimSpace` (as a character list): leading and
trailing whitespace removed. -/
def trimSpace (s : String) : List Char :=
  ((s.toList.dropWhile Char.isWhitespace).reverse.dropWhile Char.isWhitespace).reverse

/-- Rule 1: one point per ASCII alphanumeric character of the retailer name
(the Go code counts the matches of the regexp `[a-zA-Z0-9]`). -/
def rule1Points (r : Receipt) : Int :=
  ((r.Retailer.toList.filter fun c => c.isAlpha || c.isDigit).length : Int)

/-- Condition of rule 2: `strings.HasSuffix(receipt.Total, ".00")`. -/
def rule2Test (total : String) : Bool :=
  hasSuffix total ".00"

/-- Rule 2: 50 points when the literal total text ends in `".00"`. -/
def rule2Points (r : Receipt) : Int :=
  if rule2Test r.Total then 50 else 0

/-- Condition of rule 3: `math.Mod(total, 0.25) == 0` on the parsed total. -/
def rule3Test (total : String) : Bool :=
  isMultipleOfQuarter (parsedDec total)

/-- Rule 3: 25 points when the parsed total is a multiple of 0.25. -/
def rule3Points (r : Receipt) : Int :=
  if rule3Test r.Total then 25 else 0

/-- Rule 4: `(len(receipt.Items) / 2) * 5` points (integer division). -/
def rule4Points (r : Receipt) : Int :=
  ((r.Items.length / 2) * 5 : Nat)

/-- Rule 5, one item: when the trimmed description length is a multiple of 3
(the Go code tests `descriptionLength % 3 == 0`, with no lower bound), the
item contributes `int(math.Ceil(price * 0.2))`. -/
def itemRule5Points (it : Item) : Int :=
  if (trimSpace it.ShortDescription).length % 3 == 0 then
    ceilOfFifth (parsedDec it.Price)
  else 0

/-- Rule 5: sum of the per-item contributions. -/
def rule5Points (r : Receipt) : Int :=
  (r.Items.map itemRule5Points).sum

/-- Leap year of the proleptic Gregorian calendar (as Go's `time` package uses). -/
def isLeapYear (y : Nat) : Bool :=
  (y % 4 == 0 && y % 100 != 0) || y % 400 == 0

/-- Number of days of month `m` of year `y`. -/
def daysInMonth (y m : Nat) : Nat :=
  if m == 2 then (if isLeapYear y then 29 else 28)
  else if m == 4 || m == 6 || m == 9 || m == 11 then 30 else 31

/-- Calendar date (year, month, day). -/
structure Date where
  year : Nat
  month : Nat
  day : Nat
deriving DecidableEq

/-- Embedding of `time.Parse("2006-01-02", s)`: exactly four digits, dash,
two digits, dash, two digits, with the month in 1..12 and the day within the
month; `none` is Go's error case. -/
def parseDate (s : String) : Option Date :=
  match s.toList with
  | [y1, y2, y3, y4, '-', m1, m2, '-', d1, d2] =>
      if [y1, y2, y3, y4, m1, m2, d1, d2].all Char.isDigit then
        let y := digitsToNat [y1, y2, y3, y4]
        let m := digitsToNat [m1, m2]
        let d := digitsToNat [d1, d2]
        if 1 ≤ m && m ≤ 12 && 1 ≤ d && d ≤ daysInMonth y m then some ⟨y, m, d⟩
        else none
      else none
  | _ => none

/-- Day-of-month used by rule 7: `purchaseDate.Day()` after
`purchaseDate, _ := time.Parse(...)`; Go's zero `time.Time` (the value left
by a failed parse) has `Day() == 1`. -/
def purchaseDay (r : Receipt) : Nat :=
  ((parseDate r.PurchaseDate).map Date.day).getD 1

/-- Rule 7: 6 points when the day of the purchase date is odd. -/
def rule7Points (r : Receipt) : Int :=
  if purchaseDay r % 2 ≠ 0 then 6 else 0

/-- Clock time (hour, minute). -/
structure TimeHM where
  hour : Nat
  minute : Nat
deriving DecidableEq

/-- Range check of Go's time parser: hours 0..23, minutes 0..59. -/
def mkTimeHM (h m : Nat) : Option TimeHM :=
  if h ≤ 23 && m ≤ 59 then some ⟨h, m⟩ else none

/-- Embedding of `time.Parse("15:04", s)`: one or two digits of hour, colon,
exactly two digits of minute, with the ranges checked; `none` is Go's error
case. -/
def parseTimeHM (s : String) : Option TimeHM :=
  match s.toList with
  | [h1, h2, ':', m1, m2] =>
      if h1.isDigit && h2.isDigit && m1.isDigit && m2.isDigit then
        mkTimeHM (digitsToNat [h1, h2]) (digitsToNat [m1, m2])
      else none
  | [h1, ':', m1, m2] =>
      if h1.isDigit && m1.isDigit && m2.isDigit then
        mkTimeHM (digitsToNat [h1]) (digitsToNat [m1, m2])
      else none
  | _ => none

/-- Time used by rule 8: `purchaseTime.Hour()/.Minute()` after
`purchaseTime, _ := time.Parse(...)`; Go's zero `time.Time` has hour 0 and
minute 0. -/
def purchaseTime (r : Receipt) : TimeHM :=
  (parseTimeHM r.PurchaseTime).getD ⟨0, 0⟩

/-- Rule 8: 10 points when `Hour() == 14 || (Hour() == 15 && Minute() < 60)`. -/
def rule8Points (r : Receipt) : Int :=
  if (purchaseTime r).hour = 14 ∨ ((purchaseTime r).hour = 15 ∧ (purchaseTime r).minute < 60)
  then 10 else 0

/-- Minutes since midnight of a clock time. -/
def timeMinutes (t : TimeHM) : Nat :=
  60 * t.hour + t.minute

/-- Embedding of `calculatePoints`: the sum of the implemented rules
(rule 6 is commented out in the source and contributes nothing). -/
def calculatePoints (r : Receipt) : Int :=
  rule1Points r + rule2Points r + rule3Points r + rule4Points r +
    rule5Points r + rule7Points r + rule8Points r

/-- Shared state of the server: the two maps guarded by the mutex
(`receipts` and `points` in `main.go`), as partial maps from id strings. -/
structure ServerState where
  receipts : String → Option Receipt
  points : String → Option Int

/-- State at process start: both maps empty. -/
def emptyState : ServerState :=
  ⟨fun _ => none, fun _ => none⟩

/-- Outcome of the points lookup of `handleGetPoints`: the 200 body or the
404 error. -/
inductive FetchResult where
  | ok (points : Int)
  | notFound
deriving DecidableEq

/-- Embedding of `handleProcessReceipt` past JSON decoding: with `freshId`
standing for `uuid.New().String()`, it stores the receipt and its score
under `freshId` and responds with `freshId`. -/
def handleProcessReceipt (s : ServerState) (freshId : String) (r : Receipt) :
    String × ServerState :=
  (freshId,
    { receipts := fun x => if x = freshId then some r else s.receipts x
      points := fun x => if x = freshId then some (calculatePoints r) else s.points x })

/-- Embedding of `handleGetPoints`: reads `points[id]` under the mutex and
leaves the state unchanged, answering 404 when the id is absent. -/
def handleGetPoints (s : ServerState) (id : String) : FetchResult × ServerState :=
  match s.points id with
  | some p => (.ok p, s)
  | none => (.notFound, s)

/-- Embedding of the call `calculatePoints(receipt)` as seen by the server
state: the body of the Go function reads and writes neither shared map (it
only formats diagnostic output), so as a state transformer it returns the
pure score and the state it was given. -/
def calculatePointsRun (r : Receipt) (s : ServerState) : Int × ServerState :=
  (calculatePoints r, s)

/-- Receipt used to instantiate universally quantified theorems. -/
def sampleReceipt : Receipt :=
  ⟨"Target", "2022-01-01", "13:01", [⟨"Mountain Dew 12PK", "6.49"⟩], "6.49"⟩

/-- Receipt with a negative item price string, scored negatively by rule 5. -/
def negPriceReceipt : Receipt :=
  ⟨"", "", "", [⟨"ABC", "-1000.00"⟩], "0.1"⟩

/-! ## General lemmas about the embedding -/

theorem mkTimeHM_minute_le {h m : Nat} {t : TimeHM} (hp : mkTimeHM h m = some t) :
    t.minute ≤ 59 := by
  unfold mkTimeHM at hp
  split at hp
  next hc =>
    cases hp
    simp only [Bool.and_eq_true, decide_eq_true_eq] at hc
    exact hc.2
  next => cases hp

theorem parseTimeHM_minute_le {s : String} {t : TimeHM} (hp : parseTimeHM s = some t) :
    t.minute ≤ 59 := by
  unfold parseTimeHM at hp
  split at hp
  · split at hp
    · exact mkTimeHM_minute_le hp
    · cases hp
  · split at hp
    · exact mkTimeHM_minute_le hp
    · cases hp
  · cases hp

theorem purchaseTime_minute_lt (r : Receipt) : (purchaseTime r).minute < 60 := by
  unfold purchaseTime
  cases hp : parseTimeHM r.PurchaseTime with
  | none => simp
  | some t =>
    have := parseTimeHM_minute_le hp
    simpa using Nat.lt_succ_of_le this

theorem rule1Points_nonneg (r : Receipt) : 0 ≤ rule1Points r := by
  unfold rule1Points
  exact Int.natCast_nonneg _

theorem rule2Points_nonneg (r : Receipt) : 0 ≤ rule2Points r := by
  unfold rule2Points
  split <;> decide

theorem rule3Points_nonneg (r : Receipt) : 0 ≤ rule3Points r := by
  unfold rule3Points
  split <;> decide

theorem rule4Points_nonneg (r : Receipt) : 0 ≤ rule4Points r := by
  unfold rule4Points
  exact Int.natCast_nonneg _

theorem ceilOfFifth_nonneg {d : Dec} (h : 0 ≤ d.mant) : 0 ≤ ceilOfFifth d := by
  unfold ceilOfFifth
  have hb : (0 : Int) < 5 * 10 ^ d.exp10 := by positivity
  have h1 : (-d.mant) / (5 * 10 ^ d.exp10) ≤ 0 / (5 * 10 ^ d.exp10) :=
    Int.ediv_le_ediv hb (by omega)
  rw [Int.zero_ediv] at h1
  omega

theorem itemRule5Points_nonneg {it : Item} (h : 0 ≤ (parsedDec it.Price).mant) :
    0 ≤ itemRule5Points it := by
  unfold itemRule5Points
  split
  · exact ceilOfFifth_nonneg h
  · exact le_refl 0

theorem rule5Points_nonneg {r : Receipt}
    (h : ∀ it ∈ r.Items, 0 ≤ (parsedDec it.Price).mant) : 0 ≤ rule5Points r := by
  unfold rule5Points
  apply List.sum_nonneg
  intro x hx
  obtain ⟨it, hit, rfl⟩ := List.mem_map.mp hx
  exact itemRule5Points_nonneg (h it hit)

theorem rule7Points_nonneg (r : Receipt) : 0 ≤ rule7Points r := by
  unfold rule7Points
  split <;> decide

theorem rule8Points_nonneg (r : Receipt) : 0 ≤ rule8Points r := by
  unfold rule8Points
  split <;> decide

/-! ## The claims -/

/-- C1, counterexample: an item whose trimmed short description has length 0
does receive the rule-5 bonus in the code. The item with empty description and
price "10.00" contributes `ceil(10.00 * 0.2) = 2` points, not 0, and a
one-item receipt built from it gets those 2 points from rule 5. -/
theorem rule5_scores_empty_description :
    (trimSpace (Item.mk "" "10.00").ShortDescription).length = 0 ∧
    itemRule5Points (Item.mk "" "10.00") = 2 ∧
    rule5Points (Receipt.mk "R" "" "" [Item.mk "" "10.00"] "1.00") = 2 := by
  decide

/-- C1, amended: an item qualifies for rule 5 whenever its trimmed
short-description length is a multiple of 3, with no lower bound; in
particular an item whose trimmed short description has length 0 qualifies and
contributes `ceil(price * 0.2)` (which is 0 only when the parsed price makes
it so). -/
theorem rule5_empty_description_contribution (it : Item)
    (h : (trimSpace it.ShortDescription).length = 0) :
    itemRule5Points it = ceilOfFifth (parsedDec it.Price) := by
  unfold itemRule5Points
  rw [h]
  simp

/-- C1, witness for the amended theorem at the empty-description item. -/
theorem rule5_empty_description_contribution_witness :
    (trimSpace (Item.mk "" "10.00").ShortDescription).length = 0 ∧
    itemRule5Points (Item.mk "" "10.00") = ceilOfFifth (parsedDec "10.00") :=
  ⟨by decide, rule5_empty_description_contribution (Item.mk "" "10.00") (by decide)⟩

/-- C2, counterexample: `calculatePoints` can return a negative integer. On
the receipt with one item of description "ABC" (length 3) and price
"-1000.00", rule 5 contributes `ceil(-1000 * 0.2) = -200`, rule 7 contributes
6 for the unparsable date, and every other rule contributes 0, so the score
is -194 < 0. -/
theorem calculatePoints_negative_example :
    calculatePoints negPriceReceipt = -194 ∧ calculatePoints negPriceReceipt < 0 := by
  decide

/-- C2, amended: `calculatePoints` is a total function (it never aborts, also
on unparsable totals, prices, dates and times), and its result is nonnegative
whenever every item's price parses to a nonnegative value (in particular for
unparsable price strings, which are treated as 0); with an item price string
denoting a negative amount the result can be negative. -/
theorem calculatePoints_nonneg (r : Receipt)
    (h : ∀ it ∈ r.Items, 0 ≤ (parsedDec it.Price).mant) : 0 ≤ calculatePoints r := by
  have h1 := rule1Points_nonneg r
  have h2 := rule2Points_nonneg r
  have h3 := rule3Points_nonneg r
  have h4 := rule4Points_nonneg r
  have h5 := rule5Points_nonneg h
  have h7 := rule7Points_nonneg r
  have h8 := rule8Points_nonneg r
  unfold calculatePoints
  omega

/-- C2, witness for the amended theorem at a receipt with a nonnegative
price. -/
theorem calculatePoints_nonneg_witness :
    (∀ it ∈ sampleReceipt.Items, 0 ≤ (parsedDec it.Price).mant) ∧
    0 ≤ calculatePoints sampleReceipt :=
  ⟨by decide, calculatePoints_nonneg sampleReceipt (by decide)⟩

/-- C3: rule 8 contributes 10 exactly when the parsed purchase time (the zero
time 00:00 when parsing fails) lies in the half-open window [14:00, 16:00),
and contributes 0 otherwise; times "14:33" and "15:59" earn 10, "16:00" earns
0. -/
theorem rule8_half_open_window (r : Receipt) :
    ((rule8Points r = 10 ↔
        14 * 60 ≤ timeMinutes (purchaseTime r) ∧ timeMinutes (purchaseTime r) < 16 * 60) ∧
      (rule8Points r = 0 ∨ rule8Points r = 10)) ∧
    rule8Points { r with PurchaseTime := "14:33" } = 10 ∧
    rule8Points { r with PurchaseTime := "15:59" } = 10 ∧
    rule8Points { r with PurchaseTime := "16:00" } = 0 := by
  refine ⟨⟨?_, ?_⟩, by rfl, by rfl, by rfl⟩
  · have hm := purchaseTime_minute_lt r
    unfold rule8Points timeMinutes
    split
    next hc =>
      constructor
      · intro _
        rcases hc with hc | ⟨hc, _⟩ <;> omega
      · intro _
        rfl
    next hc =>
      constructor
      · intro h10
        exact absurd h10 (by decide)
      · intro ⟨hlo, hhi⟩
        exfalso
        apply hc
        have : (purchaseTime r).hour = 14 ∨ (purchaseTime r).hour = 15 := by omega
        rcases this with h | h
        · exact Or.inl h
        · exact Or.inr ⟨h, hm⟩
  · unfold rule8Points
    split <;> simp

/-- C4: rule 2 contributes 50 exactly when the literal total string ends in
".00" (a raw-text suffix test, not a numeric test: "35.000" denotes a whole
dollar amount yet earns 0, and the unparsable "x.00" earns 50), and 0
otherwise; "35.00" earns 50 and "35.10" earns 0. -/
theorem rule2_literal_suffix (r : Receipt) :
    ((rule2Points r = 50 ↔ rule2Test r.Total = true) ∧
      (rule2Points r = 0 ∨ rule2Points r = 50)) ∧
    rule2Points { r with Total := "35.00" } = 50 ∧
    rule2Points { r with Total := "35.10" } = 0 ∧
    rule2Points { r with Total := "35.000" } = 0 ∧
    rule2Points { r with Total := "x.00" } = 50 ∧
    parseFloat "x.00" = none := by
  refine ⟨⟨?_, ?_⟩, by rfl, by rfl, by rfl, by rfl, by decide⟩
  · unfold rule2Points
    split
    next hc => simp [hc]
    next hc => simp [Bool.eq_false_iff.mpr hc]
  · unfold rule2Points
    split <;> simp

/-- C5: the total string influences the score only through the ".00"-suffix
test of rule 2 and the multiple-of-0.25 test of rule 3 (there is no "total
exceeds 10.00" rule): two receipts identical except for their totals score
the same whenever the two tests agree on the two totals. -/
theorem total_beyond_rules_2_3_irrelevant (r : Receipt) (t1 t2 : String)
    (h2 : rule2Test t1 = rule2Test t2) (h3 : rule3Test t1 = rule3Test t2) :
    calculatePoints { r with Total := t1 } = calculatePoints { r with Total := t2 } := by
  dsimp only [calculatePoints, rule1Points, rule2Points, rule3Points, rule4Points,
    rule5Points, rule7Points, rule8Points, purchaseDay, purchaseTime]
  rw [h2, h3]

/-- C5, witness: totals "5.00" (not exceeding 10.00) and "35.00" (exceeding
10.00) agree on both tests, and the two receipts score the same. -/
theorem total_beyond_rules_2_3_irrelevant_witness :
    rule2Test "5.00" = rule2Test "35.00" ∧ rule3Test "5.00" = rule3Test "35.00" ∧
    calculatePoints { sampleReceipt with Total := "5.00" } =
      calculatePoints { sampleReceipt with Total := "35.00" } :=
  ⟨by decide, by decide,
    total_beyond_rules_2_3_irrelevant sampleReceipt "5.00" "35.00" (by decide) (by decide)⟩

/-- C6: `calculatePoints` is deterministic and has no effect on the server
state: as a state transformer its output does not depend on the state, the
state it returns is exactly the state it was given, and the output is the
pure function of the receipt. -/
theorem calculatePoints_deterministic_pure (r : Receipt) (s1 s2 : ServerState) :
    (calculatePointsRun r s1).1 = (calculatePointsRun r s2).1 ∧
    (calculatePointsRun r s1).2 = s1 ∧
    (calculatePointsRun r s1).1 = calculatePoints r :=
  ⟨rfl, rfl, rfl⟩

/-- C7: once an id is bound in the points map, its score never changes: the
fetch handler returns the state unchanged, and the submit handler — whose
generated id is fresh, i.e. unbound in the points map — preserves the
existing id's bindings in both maps. -/
theorem store_score_immutable (s : ServerState) (id0 : String) (p : Int)
    (h0 : s.points id0 = some p) :
    (∀ q : String, (handleGetPoints s q).2 = s) ∧
    ∀ (fid : String) (r : Receipt), s.points fid = none →
      (handleProcessReceipt s fid r).2.points id0 = some p ∧
      (handleProcessReceipt s fid r).2.receipts id0 = s.receipts id0 := by
  constructor
  · intro q
    unfold handleGetPoints
    split <;> rfl
  · intro fid r hfresh
    have hne : id0 ≠ fid := by
      intro he
      rw [he, hfresh] at h0
      cases h0
    constructor
    · show (if id0 = fid then some (calculatePoints r) else s.points id0) = some p
      rw [if_neg hne]
      exact h0
    · show (if id0 = fid then some r else s.receipts id0) = s.receipts id0
      rw [if_neg hne]

/-- C7, witness: after storing `sampleReceipt` under "id-1", a fetch of
"id-2" leaves the state unchanged and a second submit under the fresh
"id-2" leaves the score of "id-1" in place. -/
theorem store_score_immutable_witness :
    (handleGetPoints (handleProcessReceipt emptyState "id-1" sampleReceipt).2 "id-2").2 =
      (handleProcessReceipt emptyState "id-1" sampleReceipt).2 ∧
    (handleProcessReceipt (handleProcessReceipt emptyState "id-1" sampleReceipt).2
        "id-2" sampleReceipt).2.points "id-1" = some (calculatePoints sampleReceipt) := by
  have h := store_score_immutable (handleProcessReceipt emptyState "id-1" sampleReceipt).2
    "id-1" (calculatePoints sampleReceipt) (by rfl)
  exact ⟨h.1 "id-2", (h.2 "id-2" sampleReceipt (by rfl)).1⟩

/-- C8: a fetch answers not-found exactly when the id is absent from the
points map, and answers the stored score when the id is present. -/
theorem fetch_ok_iff_stored (s : ServerState) (id : String) :
    ((handleGetPoints s id).1 = FetchResult.notFound ↔ s.points id = none) ∧
    ∀ p : Int, s.points id = some p → (handleGetPoints s id).1 = FetchResult.ok p := by
  unfold handleGetPoints
  cases h : s.points id with
  | none =>
    refine ⟨by simp, ?_⟩
    intro p hp
    cases hp
  | some a =>
    refine ⟨by simp, ?_⟩
    intro p hp
    cases hp
    rfl

/-- C8, witness: the id just issued fetches its stored score, and an id never
submitted fetches not-found. -/
theorem fetch_ok_iff_stored_witness :
    (handleGetPoints (handleProcessReceipt emptyState "id-1" sampleReceipt).2 "id-1").1 =
      FetchResult.ok (calculatePoints sampleReceipt) ∧
    (handleGetPoints emptyState "missing-id").1 = FetchResult.notFound :=
  ⟨(fetch_ok_iff_stored (handleProcessReceipt emptyState "id-1" sampleReceipt).2 "id-1").2
      (calculatePoints sampleReceipt) (by rfl),
    (fetch_ok_iff_stored emptyState "missing-id").1.mpr (by rfl)⟩

/-- C9: when the purchase date string does not parse, the error is discarded
and the zero date is used, whose day-of-month is 1, an odd day; rule 7 then
contributes exactly 6 points. -/
theorem rule7_unparsable_date_six (r : Receipt) (h : parseDate r.PurchaseDate = none) :
    purchaseDay r = 1 ∧ rule7Points r = 6 := by
  have h1 : purchaseDay r = 1 := by
    unfold purchaseDay
    rw [h]
    rfl
  refine ⟨h1, ?_⟩
  unfold rule7Points
  rw [h1]
  decide

/-- C9, witness at an unparsable purchase date. -/
theorem rule7_unparsable_date_six_witness :
    parseDate (Receipt.mk "R" "banana" "" [] "").PurchaseDate = none ∧
    purchaseDay (Receipt.mk "R" "banana" "" [] "") = 1 ∧
    rule7Points (Receipt.mk "R" "banana" "" [] "") = 6 :=
  ⟨by decide, rule7_unparsable_date_six (Receipt.mk "R" "banana" "" [] "") (by decide)⟩

/-- C10: when the total string does not parse, the error is discarded and the
parsed value 0 is used; 0 is a multiple of 0.25, so rule 3 contributes
exactly 25 points. -/
theorem rule3_unparsable_total_25 (r : Receipt) (h : parseFloat r.Total = none) :
    parsedDec r.Total = ⟨0, 0⟩ ∧ rule3Points r = 25 := by
  have h1 : parsedDec r.Total = ⟨0, 0⟩ := by
    unfold parsedDec
    rw [h]
    rfl
  refine ⟨h1, ?_⟩
  unfold rule3Points rule3Test
  rw [h1]
  decide

/-- C10, witness at an unparsable total. -/
theorem rule3_unparsable_total_25_witness :
    parseFloat (Receipt.mk "R" "" "" [] "oops").Total = none ∧
    parsedDec (Receipt.mk "R" "" "" [] "oops").Total = ⟨0, 0⟩ ∧
    rule3Points (Receipt.mk "R" "" "" [] "oops") = 25 :=
  ⟨by decide, rule3_unparsable_total_25 (Receipt.mk "R" "" "" [] "oops") (by decide)⟩

end FetchOA
